import Mathlib

/-!
Verification development for the SkyKit optimizer's calibration, forecasting and
adaptive-feedback engine (`src/backend/engine/calibrator.ts`,
`src/backend/engine/forecasting.ts`).

Modelling conventions:
* JavaScript numbers are modelled by exact rationals `ℚ`.  `Math.ceil` is `⌈·⌉`,
  `Math.floor` is `⌊·⌋`, and `Math.round` (half-up) is `jsRound`.
* TypeScript `Map`s are modelled by association lists and `List.lookup`;
  `map.values()` is `List.map Prod.snd`.
* `throw` is modelled by `Except.error`.
* The source stores `distanceStdDev = Math.sqrt(variance)` and compares it only
  against non-negative thresholds (`avgDistance * 0.5`, `avgDistance * 0.6`).
  Since square roots leave `ℚ`, the model stores `distanceVariance` and replaces
  `stdDev > t` by `t^2 < variance`, which is equivalent for `t ≥ 0`.
* `Infinity` seeds of running minima (`minSpokeCapacity`, `demandStats.min`) are
  modelled by `Option ℚ` with `none` playing the role of `Infinity`.
* On finite reference data, the only calibrator operations that can produce a
  non-finite number are the divisions in `calculatePurchaseThresholds`
  (`rawThreshold`, `0/0 = NaN` escaping the clamp) and in
  `calculateEconomyLoadFactor` (`avgDailyDemandPerSpoke` at `spokeCount = 0`).
  These two paths are modelled with the explicit `JsNum` type
  (number / `±Infinity` / `NaN`) and JavaScript `Math.min`/`Math.max`/`<`
  semantics; every other quantity stays a plain rational.
-/

/-- The four fixed kit classes (`KIT_CLASSES` in `shared/types`). -/
inductive KitClass where
  | first
  | business
  | premiumEconomy
  | economy
  deriving DecidableEq, Repr

/-- The fixed iteration order `KIT_CLASSES = ['first','business','premiumEconomy','economy']`. -/
def KIT_CLASSES : List KitClass := [.first, .business, .premiumEconomy, .economy]

/-- A per-class record `{first, business, premiumEconomy, economy}`. -/
structure PerClass (α : Type) where
  first : α
  business : α
  premiumEconomy : α
  economy : α
  deriving DecidableEq, Repr

/-- `PerClassAmount` from `shared/types`: a per-class record of numbers. -/
abbrev PerClassAmount := PerClass ℚ

/-- Field access `p[kitClass]`. -/
def PerClass.get {α : Type} : PerClass α → KitClass → α
  | p, .first => p.first
  | p, .business => p.business
  | p, .premiumEconomy => p.premiumEconomy
  | p, .economy => p.economy

/-- Field assignment `p[kitClass] = v`. -/
def PerClass.set {α : Type} (p : PerClass α) (k : KitClass) (v : α) : PerClass α :=
  match k with
  | .first => { p with first := v }
  | .business => { p with business := v }
  | .premiumEconomy => { p with premiumEconomy := v }
  | .economy => { p with economy := v }

/-- Build a per-class record from a function on classes. -/
def PerClass.ofFun {α : Type} (f : KitClass → α) : PerClass α :=
  ⟨f .first, f .business, f .premiumEconomy, f .economy⟩

/-- JavaScript `Math.round` on finite values: round half up. -/
def jsRound (q : ℚ) : ℤ := ⌊q + 1/2⌋

/-- Running minimum seeded with `Infinity` (`none`): `Math.min(m, v)`. -/
def jsMinOpt (m : Option ℚ) (v : ℚ) : Option ℚ :=
  match m with
  | none => some v
  | some x => some (min x v)

/-- A JavaScript number that may be non-finite.  On finite reference data the
only operations of the calibrator that can leave the finite range are the two
divisions `rawThreshold = (demand * 1.5) / hubCapacity[k]` and
`avgDailyDemandPerSpoke = totalFlightsPerDay / spokeCount`, whose results flow
only through `Math.min`/`Math.max` and `<` comparisons; those paths are
modelled with this type. -/
inductive JsNum where
  | num (q : ℚ)
  | posInf
  | negInf
  | nan
  deriving DecidableEq, Repr

/-- JavaScript division of finite numbers: `0/0` is `NaN`, otherwise `x/0` is
`±Infinity` with the sign of `x`. -/
def jsDiv (x y : ℚ) : JsNum :=
  if y = 0 then
    if x = 0 then .nan else if 0 < x then .posInf else .negInf
  else .num (x / y)

/-- Division of a finite numerator by a JavaScript number: a finite value over
`±Infinity` is `0`, anything over `NaN` is `NaN`. -/
def jsDivNum (x : ℚ) : JsNum → JsNum
  | .num q => jsDiv x q
  | .posInf => .num 0
  | .negInf => .num 0
  | .nan => .nan

/-- Multiplication by a positive finite constant (here `* 200`). -/
def JsNum.mulPos (x : JsNum) (c : ℚ) : JsNum :=
  match x with
  | .num q => .num (q * c)
  | .posInf => .posInf
  | .negInf => .negInf
  | .nan => .nan

/-- `Math.min(c, x)` for a finite `c`: `NaN` propagates. -/
def jsMinC (c : ℚ) : JsNum → JsNum
  | .num q => .num (min c q)
  | .posInf => .num c
  | .negInf => .negInf
  | .nan => .nan

/-- `Math.max(c, x)` for a finite `c`: `NaN` propagates. -/
def jsMaxC (c : ℚ) : JsNum → JsNum
  | .num q => .num (max c q)
  | .posInf => .posInf
  | .negInf => .num c
  | .nan => .nan

/-- `x < c` in JavaScript: false whenever `x` is `NaN`. -/
def JsNum.ltc (x : JsNum) (c : ℚ) : Bool :=
  match x with
  | .num q => decide (q < c)
  | .posInf => false
  | .negInf => true
  | .nan => false

/-- `Airport` reference data: code, hub flag, per-class capacity and costs.
`loadingCost` / `processingCost` are accessed with `?.` in the source, so they
are modelled as optional. -/
structure Airport where
  code : String
  isHub : Bool
  capacity : PerClassAmount
  loadingCost : Option PerClassAmount
  processingCost : Option PerClassAmount
  deriving DecidableEq, Repr

/-- `Aircraft` reference data. -/
structure Aircraft where
  id : String
  seats : PerClassAmount
  costPerKgPerKm : ℚ
  deriving DecidableEq, Repr

/-- `FlightPlan` reference data: a recurring scheduled route. -/
structure FlightPlan where
  departCode : String
  arrivalCode : String
  scheduledHour : ℕ
  scheduledArrivalHour : ℕ
  weekdays : Fin 7 → Bool
  distanceKm : ℚ

/-- A `(day, hour)` timestamp. -/
structure DayHour where
  day : ℕ
  hour : ℕ
  deriving DecidableEq, Repr

/-- A concrete observed `FlightEvent`. -/
structure FlightEvent where
  id : String
  originAirport : String
  destinationAirport : String
  departure : DayHour
  arrival : DayHour
  passengers : PerClassAmount
  deriving DecidableEq, Repr

/-- A TypeScript `Map<string, α>` as an association list. -/
abbrev StrMap (α : Type) := List (String × α)

/-- `NetworkTopology` (calibrator.ts).  `minSpokeCapacity` is seeded with
`Infinity` in the source; `none` models that seed. -/
structure NetworkTopology where
  hubCode : String
  spokeCount : ℕ
  totalFlightsPerDay : ℚ
  avgFlightsPerSpoke : ℚ
  hubCapacity : PerClassAmount
  avgSpokeCapacity : PerClassAmount
  minSpokeCapacity : PerClass (Option ℚ)
  capacityRatio : PerClassAmount
  deriving DecidableEq, Repr

/-- `RouteEconomics` (calibrator.ts).  The source field `distanceStdDev` is the
square root of `distanceVariance`; the model stores the variance (see header). -/
structure RouteEconomics where
  avgDistance : ℚ
  minDistance : ℚ
  maxDistance : ℚ
  distanceVariance : ℚ
  avgPenaltyPerEconomyKit : ℚ
  avgTransportCost : ℚ
  penaltyCostRatio : ℚ
  deriving DecidableEq, Repr

/-- `EconomyLoadFactorConfig` (calibrator.ts). -/
structure EconomyLoadFactorConfig where
  baseline : ℚ
  warningThreshold : ℚ
  dangerThreshold : ℚ
  minFactor : ℚ
  maxFactor : ℚ
  deriving DecidableEq, Repr

/-- The `destinationBuffers` record of `DatasetCharacteristics`. -/
structure DestinationBuffers where
  hub : ℚ
  economy : ℚ
  premiumEconomy : ℚ
  firstBusiness : ℚ
  deriving DecidableEq, Repr

/-- `DatasetCharacteristics` (calibrator.ts): the calibration output. -/
structure DatasetCharacteristics where
  topology : NetworkTopology
  economics : RouteEconomics
  economyLoadFactor : EconomyLoadFactorConfig
  demandEstimates : PerClassAmount
  destinationBuffers : DestinationBuffers
  purchaseThresholdPercents : PerClass JsNum
  confidence : ℚ
  warnings : List String
  deriving DecidableEq, Repr

/-- `NetworkCalibrator.analyzeTopology`: looks up the airport stored under the
key `'HUB1'` (throwing if absent), takes the spokes to be all airports whose
`isHub` flag is false, and computes capacity and flights-per-day statistics. -/
def analyzeTopology (airports : StrMap Airport) (flightPlans : List FlightPlan) :
    Except String NetworkTopology :=
  let spokes := (airports.map Prod.snd).filter (fun a => !a.isHub)
  match airports.lookup "HUB1" with
  | none => .error "HUB1 not found in airports data"
  | some hub =>
    let n : ℚ := spokes.length
    let avgSpokeCapacity : PerClassAmount :=
      PerClass.ofFun fun k => (spokes.map (fun s => s.capacity.get k / n)).sum
    let minSpokeCapacity : PerClass (Option ℚ) :=
      PerClass.ofFun fun k => spokes.foldl (fun m s => jsMinOpt m (s.capacity.get k)) none
    let avgFlightsPerDay : ℚ :=
      ((List.finRange 7).map
        (fun d => ((flightPlans.filter (fun p => p.weekdays d)).length : ℚ))).sum / 7
    let capacityRatio : PerClassAmount :=
      PerClass.ofFun fun k =>
        if 0 < avgSpokeCapacity.get k then hub.capacity.get k / avgSpokeCapacity.get k else 1
    .ok {
      hubCode := "HUB1"
      spokeCount := spokes.length
      totalFlightsPerDay := avgFlightsPerDay
      -- `/2` for round-trip, `Math.max(1, spokes.length)` as in the source
      avgFlightsPerSpoke := avgFlightsPerDay / max 1 (spokes.length : ℚ) / 2
      hubCapacity := hub.capacity
      avgSpokeCapacity := avgSpokeCapacity
      minSpokeCapacity := minSpokeCapacity
      capacityRatio := capacityRatio
    }

/-- `NetworkCalibrator.calculateAvgTransportCost`: hub loading cost plus
distance-proportional fuel cost plus average spoke processing cost. -/
def calculateAvgTransportCost (airports : StrMap Airport) (aircraft : StrMap Aircraft)
    (avgDistance : ℚ) : ℚ :=
  let spokes := (airports.map Prod.snd).filter (fun a => !a.isHub)
  let avgLoadingCost : ℚ :=
    match (airports.lookup "HUB1").bind Airport.loadingCost with
    | some lc => lc.economy
    | none => 2.0
  let aircraftArray := aircraft.map Prod.snd
  let avgFuelRate : ℚ :=
    if 0 < aircraftArray.length then
      ((aircraftArray.map Aircraft.costPerKgPerKm).sum) / (aircraftArray.length : ℚ)
    else 0.001
  let avgFuelCost := avgDistance * avgFuelRate * 1.5
  let avgProcessingCost : ℚ :=
    if 0 < spokes.length then
      (spokes.map (fun s =>
        match s.processingCost with
        | some pc => pc.economy
        | none => 4.0)).sum / (spokes.length : ℚ)
    else 4.0
  avgLoadingCost + avgFuelCost + avgProcessingCost

/-- `NetworkCalibrator.analyzeEconomics`: distance statistics over positive
plan distances, with a fixed fallback record when no distances exist.
The fallback `distanceStdDev = 1500` becomes `distanceVariance = 1500^2`. -/
def analyzeEconomics (airports : StrMap Airport) (aircraft : StrMap Aircraft)
    (flightPlans : List FlightPlan) (_topology : NetworkTopology) : RouteEconomics :=
  let distances := (flightPlans.map FlightPlan.distanceKm).filter (fun d => decide (0 < d))
  match distances with
  | [] =>
    { avgDistance := 3000
      minDistance := 500
      maxDistance := 6000
      distanceVariance := 1500 * 1500
      avgPenaltyPerEconomyKit := 4.5
      avgTransportCost := 4.0
      penaltyCostRatio := 1.125 }
  | d0 :: rest =>
    let ds := d0 :: rest
    let avgDistance := ds.sum / (ds.length : ℚ)
    let variance := (ds.map (fun d => (d - avgDistance) ^ 2)).sum / (ds.length : ℚ)
    let avgPenaltyPerEconomyKit := 0.003 * avgDistance * 50
    let avgTransportCost := calculateAvgTransportCost airports aircraft avgDistance
    { avgDistance := avgDistance
      minDistance := rest.foldl min d0
      maxDistance := rest.foldl max d0
      distanceVariance := variance
      avgPenaltyPerEconomyKit := avgPenaltyPerEconomyKit
      avgTransportCost := avgTransportCost
      penaltyCostRatio := avgPenaltyPerEconomyKit / avgTransportCost }

/-- The "economic optimal" load-factor component: clamped to `1.0` once the
penalty/cost ratio reaches `1.0`, otherwise `0.5 + 0.5 * R`. -/
def economicOptimal (R : ℚ) : ℚ :=
  if 1 ≤ R then 1 else 0.5 + 0.5 * R

/-- `NetworkCalibrator.calculateEconomyLoadFactor`. -/
def calculateEconomyLoadFactor (economics : RouteEconomics) (topology : NetworkTopology) :
    EconomyLoadFactorConfig :=
  let eOpt := economicOptimal economics.penaltyCostRatio
  let capacityFactor := min 1.0 (topology.capacityRatio.economy / 15)
  let b0 := 0.55 + (eOpt - 0.5) * 0.35 + capacityFactor * 0.10
  -- clamp to SANITY_BOUNDS.economyLoadFactor, then round to 2 decimal places
  let b1 := max 0.50 (min 0.90 b0)
  let baseline := (jsRound (b1 * 100) : ℚ) / 100
  let avgDailyDemandPerSpoke :=
    (jsDiv topology.totalFlightsPerDay (topology.spokeCount : ℚ)).mulPos 200
  let daysBuffer := jsDivNum topology.avgSpokeCapacity.economy (jsMaxC 1 avgDailyDemandPerSpoke)
  { baseline := baseline
    warningThreshold := if daysBuffer.ltc 1.5 then 0.50 else 0.60
    dangerThreshold := if daysBuffer.ltc 1.5 then 0.70 else 0.80
    minFactor := 0.50
    maxFactor := min (baseline + 0.10) 0.90 }

/-- `NetworkCalibrator.estimateDemand`: average seats per aircraft type times a
fixed 0.80 passenger load factor, clamped to `SANITY_BOUNDS.demandEstimate`;
fixed fallback `{10, 50, 25, 200}` when no aircraft data exists. -/
def estimateDemand (aircraft : StrMap Aircraft) : PerClassAmount :=
  let aircraftArray := aircraft.map Prod.snd
  if aircraftArray.length = 0 then
    ⟨10, 50, 25, 200⟩
  else
    let n : ℚ := aircraftArray.length
    let avgSeats : PerClassAmount :=
      PerClass.ofFun fun k => (aircraftArray.map (fun a => a.seats.get k / n)).sum
    ⟨max 2 (min 100 ((⌈avgSeats.first * 0.80⌉ : ℤ) : ℚ)),
     max 5 (min 200 ((⌈avgSeats.business * 0.80⌉ : ℤ) : ℚ)),
     max 3 (min 150 ((⌈avgSeats.premiumEconomy * 0.80⌉ : ℤ) : ℚ)),
     max 30 (min 600 ((⌈avgSeats.economy * 0.80⌉ : ℤ) : ℚ))⟩

/-- `NetworkCalibrator.calculateDestinationBuffers`: linear functions of the
capacity ratios, each clamped to its fixed band. -/
def calculateDestinationBuffers (topology : NetworkTopology) : DestinationBuffers :=
  { hub := 0.95
    economy := max 0.65 (min 0.80 (0.65 + (20 - topology.capacityRatio.economy) * 0.01))
    premiumEconomy :=
      max 0.75 (min 0.85 (0.75 + (20 - topology.capacityRatio.premiumEconomy) * 0.005))
    firstBusiness :=
      max 0.80 (min 0.90 (0.80 + (20 - topology.capacityRatio.first) * 0.005)) }

/-- The fixed per-class purchase `LEAD_TIMES` in hours. -/
def purchaseLeadTime : KitClass → ℚ
  | .first => 48
  | .business => 36
  | .premiumEconomy => 24
  | .economy => 12

/-- `NetworkCalibrator.calculatePurchaseThresholds`: lead-time demand times a
1.5 safety multiplier over hub capacity, clamped to `[0.05, 0.90]`.  The
division is the JavaScript one: with a zero hub capacity it yields `Infinity`
(clamped to 0.90) or, when the demand is also zero, `NaN`, which passes
through `Math.max`/`Math.min` unclamped. -/
def calculatePurchaseThresholds (topology : NetworkTopology)
    (demandEstimates : PerClassAmount) : PerClass JsNum :=
  PerClass.ofFun fun k =>
    let demandPerHour := (topology.totalFlightsPerDay / 24) * demandEstimates.get k
    let demandDuringLeadTime := demandPerHour * purchaseLeadTime k
    let safetyMultiplier := (1.5 : ℚ)
    let rawThreshold := jsDiv (demandDuringLeadTime * safetyMultiplier)
      (topology.hubCapacity.get k)
    jsMaxC 0.05 (jsMinC 0.90 rawThreshold)

/-- `NetworkCalibrator.calculateConfidence`: starts at 1.0, fixed decrements
for unusual spoke count, high distance variance, no aircraft, few flight
plans; floored at 0.3.  `stdDev > avg * 0.5` is compared as squares. -/
def calculateConfidence (aircraft : StrMap Aircraft) (flightPlans : List FlightPlan)
    (topology : NetworkTopology) (economics : RouteEconomics) : ℚ :=
  let c1 : ℚ := if topology.spokeCount < 5 ∨ 100 < topology.spokeCount then 1.0 - 0.1 else 1.0
  let c2 := if (economics.avgDistance * 0.5) ^ 2 < economics.distanceVariance then c1 - 0.1 else c1
  let c3 := if aircraft.length = 0 then c2 - 0.2 else c2
  let c4 := if flightPlans.length < 50 then c3 - 0.2 else c3
  max 0.3 c4

/-- `NetworkCalibrator.calibrate`: the main calibration pipeline.  The only
failure is `analyzeTopology`'s missing-`'HUB1'` error; on that failure nothing
partial is produced.  `stdDev > avg * 0.6` is compared as squares. -/
def calibrate (airports : StrMap Airport) (aircraft : StrMap Aircraft)
    (flightPlans : List FlightPlan) : Except String DatasetCharacteristics :=
  match analyzeTopology airports flightPlans with
  | .error e => .error e
  | .ok topology =>
    let economics := analyzeEconomics airports aircraft flightPlans topology
    let economyLoadFactor := calculateEconomyLoadFactor economics topology
    let demandEstimates := estimateDemand aircraft
    let destinationBuffers := calculateDestinationBuffers topology
    let purchaseThresholdPercents := calculatePurchaseThresholds topology demandEstimates
    let n := topology.spokeCount
    let warnings : List String :=
      (if n < 5 then [s!"Small network detected: only {n} spokes"] else []) ++
      (if 100 < n then [s!"Large network detected: {n} spokes"] else []) ++
      (if (economics.avgDistance * 0.6) ^ 2 < economics.distanceVariance then
        ["High distance variance - may need route-specific adjustments"] else [])
    let confidence := calculateConfidence aircraft flightPlans topology economics
    .ok {
      topology := topology
      economics := economics
      economyLoadFactor := economyLoadFactor
      demandEstimates := demandEstimates
      destinationBuffers := destinationBuffers
      purchaseThresholdPercents := purchaseThresholdPercents
      confidence := confidence
      warnings := warnings
    }

/-- An airport that carries the hub flag but is stored under a key other
than `'HUB1'`. -/
def hubFlaggedElsewhere : Airport :=
  { code := "AAA"
    isHub := true
    capacity := ⟨100, 100, 100, 100⟩
    loadingCost := none
    processingCost := none }

/-- The single hub airport of the C3 scenario, with capacity
`{first: 1000, business: 3000, premiumEconomy: 1500, economy: 20000}`. -/
def scenarioHub : Airport :=
  { code := "HUB1"
    isHub := true
    capacity := ⟨1000, 3000, 1500, 20000⟩
    loadingCost := none
    processingCost := none }

/-- Calibration of the C3 scenario: zero flight plans, zero aircraft, one hub. -/
def scenarioResult : Except String DatasetCharacteristics :=
  calibrate [("HUB1", scenarioHub)] [] []

/-- A hub airport whose first-class capacity is zero; with no flight plans
this makes the first-class purchase threshold a JavaScript `0/0`. -/
def zeroFirstHub : Airport :=
  { code := "HUB1"
    isHub := true
    capacity := ⟨0, 3000, 1500, 20000⟩
    loadingCost := none
    processingCost := none }

/-- The full calibration output of the degenerate scenario, written out. -/
def scenarioChar : DatasetCharacteristics :=
  { topology :=
      { hubCode := "HUB1", spokeCount := 0, totalFlightsPerDay := 0, avgFlightsPerSpoke := 0
        hubCapacity := ⟨1000, 3000, 1500, 20000⟩
        avgSpokeCapacity := ⟨0, 0, 0, 0⟩
        minSpokeCapacity := ⟨none, none, none, none⟩
        capacityRatio := ⟨1, 1, 1, 1⟩ }
    economics :=
      { avgDistance := 3000, minDistance := 500, maxDistance := 6000
        distanceVariance := 2250000, avgPenaltyPerEconomyKit := 4.5
        avgTransportCost := 4, penaltyCostRatio := 1.125 }
    economyLoadFactor :=
      { baseline := 0.73, warningThreshold := 0.60, dangerThreshold := 0.80
        minFactor := 0.50, maxFactor := 0.83 }
    demandEstimates := ⟨10, 50, 25, 200⟩
    destinationBuffers :=
      { hub := 0.95, economy := 0.80, premiumEconomy := 0.845, firstBusiness := 0.895 }
    purchaseThresholdPercents := ⟨.num 0.05, .num 0.05, .num 0.05, .num 0.05⟩
    confidence := 0.5
    warnings := ["Small network detected: only 0 spokes"] }

/-- `DemandStats`: unbounded running aggregates.  `min` is seeded with
`Infinity` in the source, modelled by `none`. -/
structure DemandStats where
  count : ℕ
  sum : PerClassAmount
  sumSq : PerClassAmount
  statMin : PerClass (Option ℚ)
  statMax : PerClassAmount
  deriving DecidableEq, Repr

/-- The state of a `DemandForecaster`. -/
structure Forecaster where
  flightPlans : List FlightPlan
  observedDemands : PerClass (List ℚ)
  cachedAverages : Option (PerClassAmount)
  characteristics : Option DatasetCharacteristics
  demandStats : DemandStats

/-- The `DemandForecaster` constructor. -/
def Forecaster.make (flightPlans : List FlightPlan)
    (characteristics : Option DatasetCharacteristics) : Forecaster :=
  { flightPlans := flightPlans
    observedDemands := ⟨[], [], [], []⟩
    cachedAverages := none
    characteristics := characteristics
    demandStats :=
      { count := 0
        sum := ⟨0, 0, 0, 0⟩
        sumSq := ⟨0, 0, 0, 0⟩
        statMin := ⟨none, none, none, none⟩
        statMax := ⟨0, 0, 0, 0⟩ } }

/-- One class's window update in `recordObservedDemand`: push only when the
count is positive, and drop the oldest entry once the window exceeds 100. -/
def pushWindow (w : List ℚ) (v : ℚ) : List ℚ :=
  if 0 < v then
    let w' := w ++ [v]
    if 100 < w'.length then w'.drop 1 else w'
  else w

/-- `DemandForecaster.recordObservedDemand`: update each class's bounded
window (positive counts only), invalidate the cached averages, and update the
unbounded aggregate count/sum/sum-of-squares/min/max for every class. -/
def Forecaster.recordObservedDemand (s : Forecaster) (passengers : PerClassAmount) :
    Forecaster :=
  { s with
    observedDemands :=
      PerClass.ofFun fun k => pushWindow (s.observedDemands.get k) (passengers.get k)
    cachedAverages := none
    demandStats :=
      { count := s.demandStats.count + 1
        sum := PerClass.ofFun fun k => s.demandStats.sum.get k + passengers.get k
        sumSq := PerClass.ofFun fun k =>
          s.demandStats.sumSq.get k + passengers.get k * passengers.get k
        statMin := PerClass.ofFun fun k =>
          jsMinOpt (s.demandStats.statMin.get k) (passengers.get k)
        statMax := PerClass.ofFun fun k =>
          max (s.demandStats.statMax.get k) (passengers.get k) } }

/-- `DemandForecaster.getObservedMean`. -/
def Forecaster.getObservedMean (s : Forecaster) (k : KitClass) : ℚ :=
  if s.demandStats.count = 0 then 0
  else s.demandStats.sum.get k / (s.demandStats.count : ℚ)

/-- `DemandForecaster.getObservedVariance`: `0` below 2 observations, else
`E[X²] - E[X]²` over the unbounded aggregate. -/
def Forecaster.getObservedVariance (s : Forecaster) (k : KitClass) : ℚ :=
  if s.demandStats.count < 2 then 0
  else
    let mean := s.getObservedMean k
    let meanSq := s.demandStats.sumSq.get k / (s.demandStats.count : ℚ)
    meanSq - mean * mean

/-- The seed estimates: `characteristics?.demandEstimates ?? {10, 50, 25, 200}`. -/
def Forecaster.seedEstimates (s : Forecaster) : PerClassAmount :=
  match s.characteristics with
  | some ch => ch.demandEstimates
  | none => ⟨10, 50, 25, 200⟩

/-- `DemandForecaster.shouldRecalibrate`: true iff at least 50 observations
exist and some class's observed mean deviates from its seed estimate by more
than ±25% (classes whose estimate is `0` are skipped). -/
def Forecaster.shouldRecalibrate (s : Forecaster) : Bool :=
  if s.demandStats.count < 50 then false
  else
    KIT_CLASSES.any fun k =>
      let observed := s.getObservedMean k
      let estimated := s.seedEstimates.get k
      if estimated = 0 then false
      else decide (observed / estimated < 0.75) || decide (1.25 < observed / estimated)

/-- `DemandForecaster.getUpdatedDemandEstimates`: below 20 observations the
seed estimates unchanged; otherwise, per class,
`ceil(mean * 1.3 * 0.7 + initial * 0.3)`. -/
def Forecaster.getUpdatedDemandEstimates (s : Forecaster) : PerClassAmount :=
  if s.demandStats.count < 20 then s.seedEstimates
  else
    PerClass.ofFun fun k =>
      ((⌈(s.getObservedMean k * 1.3) * 0.7 + s.seedEstimates.get k * 0.3⌉ : ℤ) : ℚ)

/-- `DemandForecaster.getTypicalDemandEstimate`: the calibrated estimate if
characteristics are set, else the fixed defaults. -/
def Forecaster.getTypicalDemandEstimate (s : Forecaster) (k : KitClass) : ℚ :=
  match s.characteristics with
  | some ch => ch.demandEstimates.get k
  | none =>
    match k with
    | .first => 10
    | .business => 50
    | .premiumEconomy => 25
    | .economy => 200

/-- `DemandForecaster.getDynamicDemandEstimate`: with at least 5 windowed
observations for the class, the window average with a 30% buffer, ceiled
(the source's `cachedAverages` memoisation is value-transparent: the cache is
invalidated on every write, so a non-null cache always equals the current
window averages); otherwise the typical estimate. -/
def Forecaster.getDynamicDemandEstimate (s : Forecaster) (k : KitClass) : ℚ :=
  let observations := s.observedDemands.get k
  if 5 ≤ observations.length then
    ((⌈(observations.sum / (observations.length : ℚ)) * 1.3⌉ : ℤ) : ℚ)
  else s.getTypicalDemandEstimate k

/-- The plan-based forecast loop shared by the demand calculations: for each
hour of the horizon, every plan departing this airport at that hour on the
matching weekday contributes the dynamic estimate; `checkHour`/`checkDay`
advance with a 24-hour wrap exactly as in the source. -/
def planForecast (s : Forecaster) (airportCode : String) (k : KitClass) :
    ℕ → ℕ → ℕ → ℚ
  | 0, _, _ => 0
  | hoursLeft + 1, checkDay, checkHour =>
    let contribution :=
      ((s.flightPlans.filter fun p =>
        p.departCode == airportCode && p.scheduledHour == checkHour &&
          p.weekdays ⟨checkDay % 7, Nat.mod_lt _ (by norm_num)⟩).map
        (fun _ => s.getDynamicDemandEstimate k)).sum
    let nextHour := checkHour + 1
    if 24 ≤ nextHour then
      contribution + planForecast s airportCode k hoursLeft (checkDay + 1) 0
    else
      contribution + planForecast s airportCode k hoursLeft checkDay nextHour

/-- The known-flights part of `calculateDemandForAirport`: a flight counts
exactly when it departs from this airport, `departsInWindow` (its departure is
lexicographically at or before the target), and `departsAfterNow` (its
departure is at or after the current `(day, hour)` — note `hour >= currentHour`
in the source). -/
def knownOutboundDemand (airportCode : String) (currentDay currentHour : ℕ)
    (targetDay targetHour : ℕ) (k : KitClass)
    (knownFlights : StrMap FlightEvent) : ℚ :=
  ((knownFlights.map Prod.snd).map fun f =>
    if f.originAirport = airportCode ∧
        (f.departure.day < targetDay ∨
          (f.departure.day = targetDay ∧ f.departure.hour ≤ targetHour)) ∧
        (currentDay < f.departure.day ∨
          (f.departure.day = currentDay ∧ currentHour ≤ f.departure.hour)) then
      f.passengers.get k
    else 0).sum

/-- `DemandForecaster.calculateDemandForAirport`: exact passenger counts of
known flights departing this airport in the window, plus the plan-based
forecast over the horizon. -/
def Forecaster.calculateDemandForAirport (s : Forecaster) (airportCode : String)
    (currentDay currentHour withinHours : ℕ) (k : KitClass)
    (knownFlights : StrMap FlightEvent) : ℚ :=
  let targetDay := currentDay + (currentHour + withinHours) / 24
  let targetHour := (currentHour + withinHours) % 24
  knownOutboundDemand airportCode currentDay currentHour targetDay targetHour k knownFlights
    + planForecast s airportCode k withinHours currentDay currentHour

/-- Lexicographic `(day, hour)` comparison: `a` is at or before `b`. -/
def dhLe (a b : DayHour) : Prop :=
  a.day < b.day ∨ (a.day = b.day ∧ a.hour ≤ b.hour)

instance (a b : DayHour) : Decidable (dhLe a b) := by
  unfold dhLe
  infer_instance

/-- Modelled from the spec's words, for comparison with the source: counts a
known flight only when its departure is STRICTLY after the current
`(day, hour)` — the half-open window `(now, now + horizon]` the spec
describes.  The plan-based part is the same as the source's. -/
def specCalculateDemandForAirport (s : Forecaster) (airportCode : String)
    (currentDay currentHour withinHours : ℕ) (k : KitClass)
    (knownFlights : StrMap FlightEvent) : ℚ :=
  let targetDay := currentDay + (currentHour + withinHours) / 24
  let targetHour := (currentHour + withinHours) % 24
  ((knownFlights.map Prod.snd).map fun f =>
    if f.originAirport = airportCode ∧
        (f.departure.day < targetDay ∨
          (f.departure.day = targetDay ∧ f.departure.hour ≤ targetHour)) ∧
        (currentDay < f.departure.day ∨
          (f.departure.day = currentDay ∧ currentHour < f.departure.hour)) then
      f.passengers.get k
    else 0).sum
  + planForecast s airportCode k withinHours currentDay currentHour

/-- A known flight that departs exactly at the current `(day, hour)`. -/
def boundaryFlight : FlightEvent :=
  { id := "F1"
    originAirport := "AAA"
    destinationAirport := "BBB"
    departure := ⟨0, 5⟩
    arrival := ⟨0, 9⟩
    passengers := ⟨0, 0, 0, 7⟩ }

/-- The C6 scenario observations: 50 recorded demands with `economy = 400`. -/
def scenarioObservations : List PerClassAmount := List.replicate 50 ⟨0, 0, 0, 400⟩

/-- The forecaster after recording the C6 scenario against a calibration whose
economy demand estimate is 200 (the degenerate scenario's characteristics). -/
def scenarioForecaster : Forecaster :=
  scenarioObservations.foldl Forecaster.recordObservedDemand
    (Forecaster.make [] (some scenarioChar))

/-- `pat` begins the character list `l` (the anchored part of a substring
search). -/
def startsList : List Char → List Char → Bool
  | [], _ => true
  | _ :: _, [] => false
  | a :: as, b :: bs => a == b && startsList as bs

/-- JavaScript `String.prototype.includes`: `pat` occurs contiguously in `l`. -/
def hasSubList (pat : List Char) : List Char → Bool
  | [] => pat.isEmpty
  | c :: rest => startsList pat (c :: rest) || hasSubList pat rest

/-- `code.includes(pat)`. -/
def strIncludes (s pat : String) : Bool := hasSubList pat.data s.data

/-- A `\w` word character of the (non-unicode) JavaScript regex. -/
def isWordChar (c : Char) : Bool := c.isAlphanum || c == '_'

/-- The first match of `/Airport (\w+)/`: at each position, if the literal
`"Airport "` matches and at least one word character follows, capture the
maximal word-character run; otherwise advance one position, as the regex
engine does. -/
def findAirportCode : List Char → Option String
  | [] => none
  | c :: rest =>
    if startsList "Airport ".data (c :: rest) then
      let w := ((c :: rest).drop 8).takeWhile isWordChar
      if w.isEmpty then findAirportCode rest else some (String.mk w)
    else findAirportCode rest

/-- Case-insensitive anchored match (JavaScript `/i`, ASCII folding). -/
def startsListCI (pat l : List Char) : Bool :=
  startsList (pat.map Char.toLower) (l.map Char.toLower)

/-- The first match of `/(First|Business|Premium Economy|Economy)/i`, mapped
through the source's lower-casing to a kit class (`'premium economy'` becomes
`premiumEconomy`). -/
def findKitClass : List Char → Option KitClass
  | [] => none
  | c :: rest =>
    if startsListCI "First".data (c :: rest) then some .first
    else if startsListCI "Business".data (c :: rest) then some .business
    else if startsListCI "Premium Economy".data (c :: rest) then some .premiumEconomy
    else if startsListCI "Economy".data (c :: rest) then some .economy
    else findKitClass rest

/-- The result of `AdaptiveEngine.parseReason`. -/
structure ParsedReason where
  airportCode : Option String
  kitClass : Option KitClass
  deriving DecidableEq, Repr

/-- `AdaptiveEngine.parseReason`: regex extraction of airport code and kit
class from the free-text penalty reason. -/
def parseReason (reason : String) : ParsedReason :=
  ⟨findAirportCode reason.data, findKitClass reason.data⟩

/-- The penalty types tracked by the engine. -/
inductive PenaltyType where
  | INVENTORY_EXCEEDS_CAPACITY
  | FLIGHT_UNFULFILLED
  | NEGATIVE_INVENTORY
  deriving DecidableEq, Repr

/-- `AdaptiveEngine.classifyPenalty`: anything that is neither
`INVENTORY_EXCEEDS_CAPACITY` nor `NEGATIVE_INVENTORY` is `FLIGHT_UNFULFILLED`. -/
def classifyPenalty (code : String) : PenaltyType :=
  if code = "INVENTORY_EXCEEDS_CAPACITY" then .INVENTORY_EXCEEDS_CAPACITY
  else if code = "NEGATIVE_INVENTORY" then .NEGATIVE_INVENTORY
  else .FLIGHT_UNFULFILLED

/-- A raw `{code, penalty, reason}` tuple fed to `recordPenalties`. -/
structure RawPenalty where
  code : String
  penalty : ℚ
  reason : String
  deriving DecidableEq, Repr

/-- A stored `PenaltyRecord`. -/
structure PenaltyRecord where
  day : ℕ
  hour : ℕ
  type : PenaltyType
  amount : ℚ
  airportCode : Option String
  kitClass : Option KitClass
  deriving DecidableEq, Repr

/-- `AirportPerformance`: per-airport learning state. -/
structure AirportPerformance where
  overflowCount : ℕ
  unfulfilledCount : ℕ
  lastOverflowDay : ℤ
  riskScore : ℚ
  deriving DecidableEq, Repr

/-- `ClassPenaltyStats`: per-class penalty accumulators. -/
structure ClassPenaltyStats where
  unfulfilledCount : ℕ
  unfulfilledCost : ℚ
  overflowCount : ℕ
  overflowCost : ℚ
  deriving DecidableEq, Repr

/-- Strategy modes (mode switching is disabled; the mode stays `balanced`). -/
inductive StrategyMode where
  | aggressive
  | balanced
  | conservative
  deriving DecidableEq, Repr

/-- A daily snapshot taken at each midnight boundary. -/
structure DailySnapshot where
  day : ℕ
  economyUnfulfilled : ℚ
  totalOverflow : ℚ
  deriving DecidableEq, Repr

/-- The state of the `AdaptiveEngine` (the `loadingConfig` reference of the
source is never read by any modelled operation and is omitted). -/
structure AdaptiveEngine where
  penaltyHistory : List PenaltyRecord
  roundPenalties : List ℚ
  strategyMode : StrategyMode
  airportPerformance : String → Option AirportPerformance
  bufferMultiplier : ℚ
  economyBufferBoost : ℚ
  classPenaltyStats : PerClass ClassPenaltyStats
  dailySnapshots : List DailySnapshot
  loadFactorAdjustments : PerClassAmount
  lastAdjustmentDay : ℤ

/-- A freshly constructed `AdaptiveEngine`. -/
def AdaptiveEngine.initial : AdaptiveEngine :=
  { penaltyHistory := []
    roundPenalties := []
    strategyMode := .balanced
    airportPerformance := fun _ => none
    bufferMultiplier := 1.0
    economyBufferBoost := 0
    classPenaltyStats :=
      ⟨⟨0, 0, 0, 0⟩, ⟨0, 0, 0, 0⟩, ⟨0, 0, 0, 0⟩, ⟨0, 0, 0, 0⟩⟩
    dailySnapshots := []
    loadFactorAdjustments := ⟨0, 0, 0, 0⟩
    lastAdjustmentDay := -1 }

/-- `AdaptiveEngine.updateAirportPerformance`: overflow bumps the risk score
by 0.1 (capped at 1.0) and stamps the day; unfulfilled lowers it by 0.02
(floored at 0.1); every update then decays the score by 0.99. -/
def AdaptiveEngine.updateAirportPerformance (s : AdaptiveEngine) (code : String)
    (record : PenaltyRecord) : AdaptiveEngine :=
  let perf := (s.airportPerformance code).getD
    { overflowCount := 0, unfulfilledCount := 0, lastOverflowDay := -1, riskScore := 0.5 }
  let perf :=
    match record.type with
    | .INVENTORY_EXCEEDS_CAPACITY =>
      { perf with
        overflowCount := perf.overflowCount + 1
        lastOverflowDay := (record.day : ℤ)
        riskScore := min 1.0 (perf.riskScore + 0.1) }
    | .FLIGHT_UNFULFILLED =>
      { perf with
        unfulfilledCount := perf.unfulfilledCount + 1
        riskScore := max 0.1 (perf.riskScore - 0.02) }
    | .NEGATIVE_INVENTORY => perf
  let perf := { perf with riskScore := perf.riskScore * 0.99 }
  { s with airportPerformance := Function.update s.airportPerformance code (some perf) }

/-- `AdaptiveEngine.updateClassPenaltyStats`: attribute the penalty to the
parsed kit class, else to a class named in the code; `UNFULFILLED` codes bump
the unfulfilled accumulators, `CAPACITY`/`OVERFLOW` codes the overflow ones. -/
def AdaptiveEngine.updateClassPenaltyStats (s : AdaptiveEngine) (code : String)
    (penalty : ℚ) (kitClass : Option KitClass) : AdaptiveEngine :=
  let targetClass : Option KitClass :=
    match kitClass with
    | some k => some k
    | none =>
      if strIncludes code "ECONOMY" then some .economy
      else if strIncludes code "BUSINESS" then some .business
      else if strIncludes code "PREMIUM" then some .premiumEconomy
      else if strIncludes code "FIRST" then some .first
      else none
  match targetClass with
  | none => s
  | some k =>
    if strIncludes code "UNFULFILLED" then
      let c := s.classPenaltyStats.get k
      let c' := { c with
        unfulfilledCount := c.unfulfilledCount + 1
        unfulfilledCost := c.unfulfilledCost + penalty }
      { s with classPenaltyStats := s.classPenaltyStats.set k c' }
    else if strIncludes code "CAPACITY" || strIncludes code "OVERFLOW" then
      let c := s.classPenaltyStats.get k
      let c' := { c with
        overflowCount := c.overflowCount + 1
        overflowCost := c.overflowCost + penalty }
      { s with classPenaltyStats := s.classPenaltyStats.set k c' }
    else s

/-- `AdaptiveEngine.getEconomyUnfulfilledCost`. -/
def AdaptiveEngine.getEconomyUnfulfilledCost (s : AdaptiveEngine) : ℚ :=
  s.classPenaltyStats.economy.unfulfilledCost

/-- `AdaptiveEngine.getTotalOverflowCost`: summed in the object's insertion
order (first, business, premiumEconomy, economy). -/
def AdaptiveEngine.getTotalOverflowCost (s : AdaptiveEngine) : ℚ :=
  s.classPenaltyStats.first.overflowCost + s.classPenaltyStats.business.overflowCost
    + s.classPenaltyStats.premiumEconomy.overflowCost
    + s.classPenaltyStats.economy.overflowCost

/-- `AdaptiveEngine.takeDailySnapshot`. -/
def AdaptiveEngine.takeDailySnapshot (s : AdaptiveEngine) (day : ℕ) : AdaptiveEngine :=
  { s with dailySnapshots := s.dailySnapshots ++
      [{ day := day
         economyUnfulfilled := s.classPenaltyStats.economy.unfulfilledCost
         totalOverflow := s.getTotalOverflowCost }] }

/-- The net effect of the source's `while (... > n) shift()` trimming loops:
keep the last `n` entries. -/
def trimToLast (n : ℕ) {α : Type} (l : List α) : List α := l.drop (l.length - n)

/-- Processing of one penalty inside `recordPenalties`: build the record from
`classifyPenalty`/`parseReason`, push it to the history, update the airport
performance when an airport code was parsed, and update the class stats. -/
def AdaptiveEngine.processPenalty (day hour : ℕ) (s : AdaptiveEngine) (p : RawPenalty) :
    AdaptiveEngine :=
  let parsed := parseReason p.reason
  let record : PenaltyRecord :=
    { day := day, hour := hour, type := classifyPenalty p.code, amount := p.penalty
      airportCode := parsed.airportCode, kitClass := parsed.kitClass }
  let s := { s with penaltyHistory := s.penaltyHistory ++ [record] }
  let s :=
    match record.airportCode with
    | some c => s.updateAirportPerformance c record
    | none => s
  s.updateClassPenaltyStats p.code p.penalty record.kitClass

/-- `AdaptiveEngine.analyzeAndAdapt`: global mode switching is disabled in the
source (the whole body is commented out), so this is the identity. -/
def AdaptiveEngine.analyzeAndAdapt (s : AdaptiveEngine) (_currentDay _currentHour : ℕ) :
    AdaptiveEngine := s

/-- `AdaptiveEngine.recordPenalties`: process all penalties, push the round
total, trim the rolling windows (72·24 penalty records, 72 round totals), and
take the previous day's snapshot at each midnight with `day > 0`. -/
def AdaptiveEngine.recordPenalties (s : AdaptiveEngine) (penalties : List RawPenalty)
    (day hour : ℕ) : AdaptiveEngine :=
  let roundTotal := (penalties.map RawPenalty.penalty).sum
  let s := penalties.foldl (AdaptiveEngine.processPenalty day hour) s
  let s := { s with roundPenalties := s.roundPenalties ++ [roundTotal] }
  let s := { s with
    penaltyHistory := trimToLast (72 * 24) s.penaltyHistory
    roundPenalties := trimToLast 72 s.roundPenalties }
  let s := if hour = 0 ∧ 0 < day then s.takeDailySnapshot (day - 1) else s
  s.analyzeAndAdapt day hour

/-- `AdaptiveEngine.getAirportRiskScore`: `perf?.riskScore ?? 0.5`. -/
def AdaptiveEngine.getAirportRiskScore (s : AdaptiveEngine) (airportCode : String) : ℚ :=
  match s.airportPerformance airportCode with
  | some perf => perf.riskScore
  | none => 0.5

/-- `AdaptiveEngine.suggestLoadFactorAdjustment`: the once-per-day bounded
control step; returns the cumulative economy adjustment and the new state. -/
def AdaptiveEngine.suggestLoadFactorAdjustment (s : AdaptiveEngine) (currentDay : ℕ) :
    ℚ × AdaptiveEngine :=
  if currentDay < 3 then (0, s)
  else if (currentDay : ℤ) = s.lastAdjustmentDay then (s.loadFactorAdjustments.economy, s)
  else
    let MAX_DAILY_ADJUSTMENT : ℚ := 0.02
    let MAX_TOTAL_ADJUSTMENT : ℚ := 0.10
    let UNFULFILLED_THRESHOLD : ℚ := 500000
    let OVERFLOW_THRESHOLD : ℚ := 10000
    let economyUnfulfilledRate := s.classPenaltyStats.economy.unfulfilledCost / (currentDay : ℚ)
    let overflowRate := s.getTotalOverflowCost / (currentDay : ℚ)
    let currentAdjustment := s.loadFactorAdjustments.economy
    if MAX_TOTAL_ADJUSTMENT ≤ |currentAdjustment| then (currentAdjustment, s)
    else
      let adjustment : ℚ :=
        if UNFULFILLED_THRESHOLD < economyUnfulfilledRate ∧ overflowRate < OVERFLOW_THRESHOLD
        then MAX_DAILY_ADJUSTMENT
        else if OVERFLOW_THRESHOLD * 5 < overflowRate then -MAX_DAILY_ADJUSTMENT
        else 0
      let adjustment :=
        if MAX_TOTAL_ADJUSTMENT < currentAdjustment + adjustment then
          MAX_TOTAL_ADJUSTMENT - currentAdjustment
        else if currentAdjustment + adjustment < -MAX_TOTAL_ADJUSTMENT then
          -MAX_TOTAL_ADJUSTMENT - currentAdjustment
        else adjustment
      if adjustment ≠ 0 then
        (currentAdjustment + adjustment,
         { s with
            loadFactorAdjustments :=
              { s.loadFactorAdjustments with economy := currentAdjustment + adjustment }
            lastAdjustmentDay := (currentDay : ℤ) })
      else (currentAdjustment, s)

/-- A call made to the engine: either `recordPenalties` or
`suggestLoadFactorAdjustment` (whose returned value the trace discards). -/
inductive AdaptOp where
  | recPen (penalties : List RawPenalty) (day hour : ℕ)
  | sugAdj (day : ℕ)

/-- Apply one call to the engine state. -/
def applyAdaptOp (s : AdaptiveEngine) : AdaptOp → AdaptiveEngine
  | .recPen penalties day hour => s.recordPenalties penalties day hour
  | .sugAdj day => (s.suggestLoadFactorAdjustment day).2

/-- The engine state after a sequence of calls from a fresh engine. -/
def runAdaptOps (ops : List AdaptOp) : AdaptiveEngine :=
  ops.foldl applyAdaptOp AdaptiveEngine.initial

/-! ### Helper lemmas and claim theorems -/

theorem PerClass.get_ofFun {α : Type} (f : KitClass → α) (k : KitClass) :
    (PerClass.ofFun f).get k = f k := by
  cases k <;> rfl

/-- C1 (counterexample): the claim says calibration does not throw on any
input map containing an airport with `isHub` set; but on a map holding a single
hub-flagged airport under the key `"AAA"`, `calibrate` fails, because the hub
is located by the literal key `'HUB1'`, not by the `isHub` flag. -/
theorem C1_counterexample :
    hubFlaggedElsewhere.isHub = true ∧
    (calibrate [("AAA", hubFlaggedElsewhere)] [] []).isOk = false := by
  constructor
  · rfl
  · decide

/-- C1 (amended): `calibrate` locates the hub as the airport stored under the
key `'HUB1'` (the `isHub` flag only selects the spokes), and it fails — with
the `ConfigurationError` `'HUB1 not found in airports data'` — exactly when no
airport is stored under that key; this is its only hard failure, and on
failure nothing partial is returned (the result is `Except.error`). -/
theorem C1_hub_key_failure (airports : StrMap Airport) (aircraft : StrMap Aircraft)
    (flightPlans : List FlightPlan) :
    (calibrate airports aircraft flightPlans).isOk = (airports.lookup "HUB1").isSome := by
  cases h : airports.lookup "HUB1" with
  | none => simp [calibrate, analyzeTopology, h, Except.isOk, Except.toBool]
  | some hub => simp [calibrate, analyzeTopology, h, Except.isOk, Except.toBool]

/-- C4: the economic-optimal component of the economy load factor is the
piecewise-linear function of `penaltyCostRatio` stated by the spec: exactly
`1.0` for every ratio `R ≥ 1.0`, exactly `0.5` at `R = 0`, and
`0.5 + 0.5 * R` for `0 ≤ R < 1.0`. -/
theorem C4_economic_optimal (R : ℚ) (_h : 0 ≤ R) :
    (1 ≤ R → economicOptimal R = 1) ∧
    (R < 1 → economicOptimal R = 0.5 + 0.5 * R) ∧
    economicOptimal 0 = 0.5 := by
  refine ⟨fun h1 => if_pos h1, fun h1 => if_neg (not_le.mpr h1), ?_⟩
  norm_num [economicOptimal]

/-- Witness for C4 at the concrete ratios `R = 2`. -/
theorem C4_economic_optimal_witness : economicOptimal 2 = 1 :=
  (C4_economic_optimal 2 (by norm_num)).1 (by norm_num)

/-- C3: on zero flight plans, zero aircraft and the single hub airport,
`calibrate` succeeds, the demand estimates are the fixed fallback
`{10, 50, 25, 200}`, the confidence is `0.5 ≤ 0.6`, and the warnings list is
non-empty. -/
theorem C3_degenerate_scenario :
    scenarioResult.isOk = true ∧
    scenarioResult.toOption.map DatasetCharacteristics.demandEstimates =
      some ⟨10, 50, 25, 200⟩ ∧
    scenarioResult.toOption.map DatasetCharacteristics.confidence = some (1/2) ∧
    ((1 : ℚ)/2 ≤ 0.6) ∧
    scenarioResult.toOption.map (fun ch => ch.warnings.isEmpty) = some false := by
  refine ⟨?_, ?_, ?_, by norm_num, ?_⟩ <;>
    norm_num [scenarioResult, calibrate, analyzeTopology, analyzeEconomics,
      calculateConfidence, estimateDemand, scenarioHub, Except.toOption, Except.isOk,
      Except.toBool]

/-- `Math.max(lo, Math.min(hi, x))` lands in `[lo, hi]` whenever `lo ≤ hi`. -/
theorem rat_clamp_mem (lo hi x : ℚ) (h : lo ≤ hi) :
    lo ≤ max lo (min hi x) ∧ max lo (min hi x) ≤ hi :=
  ⟨le_max_left _ _, max_le h (min_le_left _ _)⟩

/-- Rounding a value of `[0.50, 0.90]` to two decimals stays in `[0.50, 0.90]`. -/
theorem jsRound_scaled_bounds {b : ℚ} (h1 : 1/2 ≤ b) (h2 : b ≤ 9/10) :
    1/2 ≤ (jsRound (b * 100) : ℚ) / 100 ∧ (jsRound (b * 100) : ℚ) / 100 ≤ 9/10 := by
  have h50 : (50 : ℤ) ≤ jsRound (b * 100) := by
    rw [jsRound]
    exact Int.le_floor.mpr (by push_cast; linarith)
  have h90 : jsRound (b * 100) ≤ 90 := by
    rw [jsRound]
    have hfl : ((⌊b * 100 + 1/2⌋ : ℤ) : ℚ) ≤ b * 100 + 1/2 := Int.floor_le _
    have hlt : ((⌊b * 100 + 1/2⌋ : ℤ) : ℚ) < 91 := lt_of_le_of_lt hfl (by linarith)
    have hlt' : ⌊b * 100 + 1/2⌋ < (91 : ℤ) := by exact_mod_cast hlt
    omega
  constructor
  · have hc : ((50 : ℤ) : ℚ) ≤ (jsRound (b * 100) : ℚ) := by exact_mod_cast h50
    push_cast at hc
    linarith
  · have hc : ((jsRound (b * 100) : ℤ) : ℚ) ≤ ((90 : ℤ) : ℚ) := by exact_mod_cast h90
    push_cast at hc
    linarith

/-- C7 (counterexample): on the zero-first-capacity hub with no aircraft and
no flight plans, `calibrate` succeeds but the first-class purchase threshold
is the JavaScript `NaN` (`0/0` passes through
`Math.max(0.05, Math.min(0.90, NaN))` unclamped), which is not a number in
`[0.05, 0.90]`. -/
theorem C7_counterexample :
    (calibrate [("HUB1", zeroFirstHub)] [] []).isOk = true ∧
    (calibrate [("HUB1", zeroFirstHub)] [] []).toOption.map
        (fun ch => ch.purchaseThresholdPercents.first) = some JsNum.nan ∧
    ¬ ∃ q : ℚ, JsNum.nan = JsNum.num q ∧ 1/20 ≤ q ∧ q ≤ 9/10 := by
  refine ⟨?_, ?_, ?_⟩
  · norm_num [calibrate, analyzeTopology, zeroFirstHub, Except.isOk, Except.toBool]
  · norm_num [calibrate, analyzeTopology, analyzeEconomics, calculatePurchaseThresholds,
      estimateDemand, zeroFirstHub, jsDiv, jsMinC, jsMaxC, purchaseLeadTime,
      PerClass.ofFun, PerClass.get, Except.toOption, List.finRange]
  · rintro ⟨q, hq, -⟩
    cases hq

/-- C7 (amended): whenever `calibrate` succeeds, the economy load-factor
baseline lies in `[0.50, 0.90]` and the destination buffer fractions lie in
their fixed bands (economy `[0.65, 0.80]`, premium economy `[0.75, 0.85]`,
first/business `[0.80, 0.90]`); every per-class purchase-threshold entry is
either the non-number `NaN` (the JavaScript `0/0` of a zero hub class
capacity with zero scheduled lead-time demand) or a number lying in
`[0.05, 0.90]`. -/
theorem C7_calibrated_bounds (airports : StrMap Airport) (aircraft : StrMap Aircraft)
    (flightPlans : List FlightPlan) (ch : DatasetCharacteristics)
    (h : calibrate airports aircraft flightPlans = .ok ch) :
    (1/2 ≤ ch.economyLoadFactor.baseline ∧ ch.economyLoadFactor.baseline ≤ 9/10) ∧
    (∀ k, ch.purchaseThresholdPercents.get k = JsNum.nan ∨
      ∃ q : ℚ, ch.purchaseThresholdPercents.get k = JsNum.num q ∧
        1/20 ≤ q ∧ q ≤ 9/10) ∧
    (13/20 ≤ ch.destinationBuffers.economy ∧ ch.destinationBuffers.economy ≤ 4/5) ∧
    (3/4 ≤ ch.destinationBuffers.premiumEconomy ∧
      ch.destinationBuffers.premiumEconomy ≤ 17/20) ∧
    (4/5 ≤ ch.destinationBuffers.firstBusiness ∧
      ch.destinationBuffers.firstBusiness ≤ 9/10) := by
  cases htop : analyzeTopology airports flightPlans with
  | error e => simp [calibrate, htop] at h
  | ok topology =>
    simp only [calibrate, htop, Except.ok.injEq] at h
    subst h
    refine ⟨?_, ?_, ?_, ?_, ?_⟩
    · -- baseline: clamp to [0.50, 0.90] and round to 2 decimals
      simp only [calculateEconomyLoadFactor]
      exact jsRound_scaled_bounds
        (le_trans (by norm_num) (le_max_left _ _))
        (le_trans (max_le (by norm_num) (min_le_left _ _)) (by norm_num))
    · -- purchase thresholds: NaN or clamped to [0.05, 0.90]
      intro k
      simp only [calculatePurchaseThresholds, PerClass.get_ofFun]
      unfold jsDiv
      split_ifs with h1 h2 h3
      · left
        rfl
      · right
        exact ⟨max 0.05 0.90, rfl, by norm_num, by norm_num⟩
      · right
        exact ⟨0.05, rfl, by norm_num, by norm_num⟩
      · right
        refine ⟨_, rfl, ?_, ?_⟩
        · exact le_trans (by norm_num) (le_max_left _ _)
        · exact le_trans (max_le (by norm_num) (min_le_left _ _)) (by norm_num)
    · simp only [calculateDestinationBuffers]
      exact ⟨le_trans (by norm_num) (le_max_left _ _),
        le_trans (max_le (by norm_num) (min_le_left _ _)) (by norm_num)⟩
    · simp only [calculateDestinationBuffers]
      exact ⟨le_trans (by norm_num) (le_max_left _ _),
        le_trans (max_le (by norm_num) (min_le_left _ _)) (by norm_num)⟩
    · simp only [calculateDestinationBuffers]
      exact ⟨le_trans (by norm_num) (le_max_left _ _),
        le_trans (max_le (by norm_num) (min_le_left _ _)) (by norm_num)⟩

/-- Full evaluation of the degenerate scenario's calibration. -/
theorem scenario_calibrate_eq : scenarioResult = Except.ok scenarioChar := by
  norm_num [scenarioResult, calibrate, analyzeTopology, analyzeEconomics,
    calculateAvgTransportCost, calculateEconomyLoadFactor, economicOptimal,
    estimateDemand, calculateDestinationBuffers, calculatePurchaseThresholds,
    calculateConfidence, scenarioHub, scenarioChar, jsRound, jsMinOpt,
    jsDiv, jsDivNum, jsMinC, jsMaxC, JsNum.mulPos, JsNum.ltc,
    PerClass.ofFun, PerClass.get, purchaseLeadTime, List.finRange]
  decide

/-- Witness for C7: the baseline bounds hold at the degenerate scenario input. -/
theorem C7_calibrated_bounds_witness :
    1/2 ≤ scenarioChar.economyLoadFactor.baseline ∧
    scenarioChar.economyLoadFactor.baseline ≤ 9/10 :=
  (C7_calibrated_bounds [("HUB1", scenarioHub)] [] [] scenarioChar scenario_calibrate_eq).1

/-- C5 (counterexample): at `(day, hour) = (0, 5)` with a 1-hour horizon, a
known flight departing exactly at `(0, 5)` — not strictly after now — is
counted by the source (`hour >= currentHour`), yielding 7 where the claim's
half-open window `(now, now+horizon]` would yield 0. -/
theorem C5_counterexample :
    (Forecaster.make [] none).calculateDemandForAirport "AAA" 0 5 1 .economy
        [("F1", boundaryFlight)] = 7 ∧
    specCalculateDemandForAirport (Forecaster.make [] none) "AAA" 0 5 1 .economy
        [("F1", boundaryFlight)] = 0 := by
  constructor <;>
    norm_num [Forecaster.calculateDemandForAirport, specCalculateDemandForAirport,
      knownOutboundDemand, planForecast, Forecaster.make, boundaryFlight, PerClass.get]

/-- C5 (amended): `calculateDemandForAirport` counts a known flight's
passenger count exactly when the flight departs from that airport with a
departure in the CLOSED interval `[now, now + horizon]` — at or after the
current `(day, hour)` and at or before `(day, hour)` plus the horizon — plus
the plan-based forecast component. -/
theorem C5_outbound_window (s : Forecaster) (airportCode : String)
    (currentDay currentHour withinHours : ℕ) (k : KitClass)
    (knownFlights : StrMap FlightEvent) :
    s.calculateDemandForAirport airportCode currentDay currentHour withinHours k knownFlights =
      ((knownFlights.map Prod.snd).map fun f =>
        if f.originAirport = airportCode ∧
            dhLe ⟨currentDay, currentHour⟩ f.departure ∧
            dhLe f.departure ⟨currentDay + (currentHour + withinHours) / 24,
                              (currentHour + withinHours) % 24⟩ then
          f.passengers.get k
        else 0).sum
      + planForecast s airportCode k withinHours currentDay currentHour := by
  unfold Forecaster.calculateDemandForAirport knownOutboundDemand dhLe
  dsimp only
  congr 1
  apply congrArg
  apply List.map_congr_left
  intro f _
  refine if_congr ?_ rfl rfl
  refine and_congr_right fun _ => ?_
  constructor
  · rintro ⟨hw, hn⟩
    exact ⟨by omega, by omega⟩
  · rintro ⟨hn, hw⟩
    exact ⟨by omega, by omega⟩

theorem PerClass.get_const {α : Type} (c : α) (k : KitClass) :
    (⟨c, c, c, c⟩ : PerClass α).get k = c := by
  cases k <;> rfl

/-- Folding `recordObservedDemand` accumulates count, per-class sums and
sums of squares, and preserves the characteristics. -/
theorem foldRecord_stats (s : Forecaster) (obs : List PerClassAmount) :
    (obs.foldl Forecaster.recordObservedDemand s).demandStats.count
        = s.demandStats.count + obs.length ∧
    (∀ k, (obs.foldl Forecaster.recordObservedDemand s).demandStats.sum.get k
        = s.demandStats.sum.get k + (obs.map (fun p => p.get k)).sum) ∧
    (∀ k, (obs.foldl Forecaster.recordObservedDemand s).demandStats.sumSq.get k
        = s.demandStats.sumSq.get k + (obs.map (fun p => p.get k * p.get k)).sum) ∧
    (obs.foldl Forecaster.recordObservedDemand s).characteristics = s.characteristics := by
  induction obs generalizing s with
  | nil => simp
  | cons p rest ih =>
    obtain ⟨h1, h2, h3, h4⟩ := ih (s.recordObservedDemand p)
    refine ⟨?_, fun k => ?_, fun k => ?_, ?_⟩
    · rw [List.foldl_cons, h1]
      simp only [Forecaster.recordObservedDemand, List.length_cons]
      omega
    · rw [List.foldl_cons, h2 k]
      simp only [Forecaster.recordObservedDemand, PerClass.get_ofFun, List.map_cons,
        List.sum_cons]
      ring
    · rw [List.foldl_cons, h3 k]
      simp only [Forecaster.recordObservedDemand, PerClass.get_ofFun, List.map_cons,
        List.sum_cons]
      ring
    · rw [List.foldl_cons, h4]
      rfl

/-- C8: `getObservedVariance` returns 0 when fewer than 2 observations have
been recorded, and otherwise equals the population variance
`E[X²] - (E[X])²` of all recorded values for the class. -/
theorem C8_observed_variance (plans : List FlightPlan)
    (chars : Option DatasetCharacteristics) (obs : List PerClassAmount) (k : KitClass) :
    (obs.foldl Forecaster.recordObservedDemand (Forecaster.make plans chars)).getObservedVariance k
      = if obs.length < 2 then 0
        else (obs.map (fun p => p.get k * p.get k)).sum / (obs.length : ℚ)
          - ((obs.map (fun p => p.get k)).sum / (obs.length : ℚ))
            * ((obs.map (fun p => p.get k)).sum / (obs.length : ℚ)) := by
  obtain ⟨hc, hs, hq, -⟩ := foldRecord_stats (Forecaster.make plans chars) obs
  have hc' : (obs.foldl Forecaster.recordObservedDemand
      (Forecaster.make plans chars)).demandStats.count = obs.length := by
    rw [hc]; simp [Forecaster.make]
  have hs' : (obs.foldl Forecaster.recordObservedDemand
      (Forecaster.make plans chars)).demandStats.sum.get k
        = (obs.map (fun p => p.get k)).sum := by
    rw [hs k, Forecaster.make, PerClass.get_const, zero_add]
  have hq' : (obs.foldl Forecaster.recordObservedDemand
      (Forecaster.make plans chars)).demandStats.sumSq.get k
        = (obs.map (fun p => p.get k * p.get k)).sum := by
    rw [hq k, Forecaster.make, PerClass.get_const, zero_add]
  unfold Forecaster.getObservedVariance Forecaster.getObservedMean
  rw [hc', hs', hq']
  by_cases h2 : obs.length < 2
  · simp [h2]
  · have h0 : ¬ obs.length = 0 := by omega
    simp only [h2, if_false, h0]

/-- Folding observations never changes the seed estimates. -/
theorem foldRecord_seed (plans : List FlightPlan) (chars : Option DatasetCharacteristics)
    (obs : List PerClassAmount) :
    (obs.foldl Forecaster.recordObservedDemand (Forecaster.make plans chars)).seedEstimates
      = (Forecaster.make plans chars).seedEstimates := by
  unfold Forecaster.seedEstimates
  rw [(foldRecord_stats (Forecaster.make plans chars) obs).2.2.2]

theorem scenarioForecaster_count : scenarioForecaster.demandStats.count = 50 := by
  unfold scenarioForecaster
  rw [(foldRecord_stats _ _).1]
  simp [Forecaster.make, scenarioObservations]

theorem scenarioForecaster_sum (k : KitClass) :
    scenarioForecaster.demandStats.sum.get k
      = 50 * (⟨0, 0, 0, 400⟩ : PerClassAmount).get k := by
  unfold scenarioForecaster
  rw [(foldRecord_stats _ _).2.1 k]
  simp only [Forecaster.make, PerClass.get_const, zero_add, scenarioObservations,
    List.map_replicate, List.sum_replicate, nsmul_eq_mul]
  norm_num

theorem scenarioForecaster_seed :
    scenarioForecaster.seedEstimates = ⟨10, 50, 25, 200⟩ := by
  unfold scenarioForecaster
  rw [foldRecord_seed]
  simp [Forecaster.seedEstimates, Forecaster.make, scenarioChar]

/-- C6: `getUpdatedDemandEstimates` returns the seed estimate unchanged below
20 observations regardless of their values; with at least 20 observations it
returns, per class, `ceil(observedMean * 1.3 * 0.7 + initialEstimate * 0.3)`.
In the scenario of 50 observations with `economy = 400` against a calibrated
economy estimate of 200, `shouldRecalibrate` returns true and the updated
economy estimate is 424. -/
theorem C6_updated_demand (plans : List FlightPlan) (chars : Option DatasetCharacteristics)
    (obs : List PerClassAmount) :
    (obs.length < 20 →
      (obs.foldl Forecaster.recordObservedDemand
        (Forecaster.make plans chars)).getUpdatedDemandEstimates
          = (Forecaster.make plans chars).seedEstimates) ∧
    (20 ≤ obs.length → ∀ k,
      ((obs.foldl Forecaster.recordObservedDemand
        (Forecaster.make plans chars)).getUpdatedDemandEstimates).get k
          = ((⌈(obs.map (fun p => p.get k)).sum / (obs.length : ℚ) * 1.3 * 0.7
              + (Forecaster.make plans chars).seedEstimates.get k * 0.3⌉ : ℤ) : ℚ)) ∧
    scenarioForecaster.shouldRecalibrate = true ∧
    scenarioForecaster.getUpdatedDemandEstimates.economy = 424 := by
  obtain ⟨hc, hs, hq, hch⟩ := foldRecord_stats (Forecaster.make plans chars) obs
  have hcnt : (obs.foldl Forecaster.recordObservedDemand
      (Forecaster.make plans chars)).demandStats.count = obs.length := by
    rw [hc]; simp [Forecaster.make]
  refine ⟨fun hlt => ?_, fun hge k => ?_, ?_, ?_⟩
  · unfold Forecaster.getUpdatedDemandEstimates
    rw [hcnt, if_pos hlt, foldRecord_seed]
  · unfold Forecaster.getUpdatedDemandEstimates
    rw [hcnt, if_neg (by omega), PerClass.get_ofFun, foldRecord_seed]
    unfold Forecaster.getObservedMean
    rw [hcnt, if_neg (by omega), hs k]
    simp only [Forecaster.make, PerClass.get_const, zero_add]
  · have h1 := scenarioForecaster_sum .first
    simp only [PerClass.get] at h1
    norm_num at h1
    unfold Forecaster.shouldRecalibrate Forecaster.getObservedMean
    simp only [scenarioForecaster_count, scenarioForecaster_seed,
      KIT_CLASSES, List.any_cons, List.any_nil, PerClass.get]
    norm_num [h1]
  · have h4 := scenarioForecaster_sum .economy
    simp only [PerClass.get] at h4
    norm_num at h4
    unfold Forecaster.getUpdatedDemandEstimates Forecaster.getObservedMean
    simp only [scenarioForecaster_count, scenarioForecaster_seed]
    norm_num [PerClass.ofFun, PerClass.get, h4]

/-- Witness for C6: with zero observations the estimates are the defaults. -/
theorem C6_updated_demand_witness :
    (Forecaster.make [] none).getUpdatedDemandEstimates
      = (Forecaster.make [] none).seedEstimates :=
  (C6_updated_demand [] none []).1 (by norm_num)

/-- C9 (counterexample): the claim says `recordObservedDemand` appends each
class's count to the bounded window AND the aggregate; but a zero economy
count is NOT appended to the window (the push is guarded by `count > 0`),
while the aggregate count still increments. -/
theorem C9_counterexample :
    ((Forecaster.make [] none).recordObservedDemand ⟨0, 0, 0, 0⟩).observedDemands.economy
      = [] ∧
    ((Forecaster.make [] none).recordObservedDemand ⟨0, 0, 0, 0⟩).demandStats.count = 1 := by
  constructor <;>
    norm_num [Forecaster.recordObservedDemand, Forecaster.make, pushWindow,
      PerClass.ofFun, PerClass.get]

/-- C9 (amended): `recordObservedDemand` appends a class's count to that
class's bounded window only when the count is strictly positive (evicting the
oldest entry once the window exceeds 100), always appends it to the unbounded
aggregate count/sum/sum-of-squares/min/max statistics, and invalidates the
cached mean. -/
theorem C9_record_observed (s : Forecaster) (p : PerClassAmount) (k : KitClass) :
    ((s.recordObservedDemand p).observedDemands.get k
      = if 0 < p.get k then
          (if 100 < (s.observedDemands.get k ++ [p.get k]).length then
            (s.observedDemands.get k ++ [p.get k]).drop 1
          else s.observedDemands.get k ++ [p.get k])
        else s.observedDemands.get k) ∧
    (s.recordObservedDemand p).cachedAverages = none ∧
    (s.recordObservedDemand p).demandStats.count = s.demandStats.count + 1 ∧
    (s.recordObservedDemand p).demandStats.sum.get k
      = s.demandStats.sum.get k + p.get k ∧
    (s.recordObservedDemand p).demandStats.sumSq.get k
      = s.demandStats.sumSq.get k + p.get k * p.get k ∧
    (s.recordObservedDemand p).demandStats.statMin.get k
      = jsMinOpt (s.demandStats.statMin.get k) (p.get k) ∧
    (s.recordObservedDemand p).demandStats.statMax.get k
      = max (s.demandStats.statMax.get k) (p.get k) := by
  unfold Forecaster.recordObservedDemand pushWindow
  exact ⟨by rw [PerClass.get_ofFun], rfl, rfl, by rw [PerClass.get_ofFun],
    by rw [PerClass.get_ofFun], by rw [PerClass.get_ofFun], by rw [PerClass.get_ofFun]⟩

/-- One `suggestLoadFactorAdjustment` call: it preserves the cumulative-bound
and adjustment-day invariants, returns a value of magnitude at most 0.10,
moves the stored cumulative adjustment by at most 0.02, returns 0 before day
3, and on the day of the last applied adjustment returns the stored value
without changing the state. -/
theorem suggest_step (s : AdaptiveEngine) (d : ℕ)
    (hadj : |s.loadFactorAdjustments.economy| ≤ 0.10)
    (hday : s.lastAdjustmentDay = -1 ∨ 3 ≤ s.lastAdjustmentDay) :
    (|(s.suggestLoadFactorAdjustment d).2.loadFactorAdjustments.economy| ≤ 0.10 ∧
      ((s.suggestLoadFactorAdjustment d).2.lastAdjustmentDay = -1 ∨
        3 ≤ (s.suggestLoadFactorAdjustment d).2.lastAdjustmentDay)) ∧
    |(s.suggestLoadFactorAdjustment d).1| ≤ 0.10 ∧
    |(s.suggestLoadFactorAdjustment d).2.loadFactorAdjustments.economy
        - s.loadFactorAdjustments.economy| ≤ 0.02 ∧
    (d < 3 → s.suggestLoadFactorAdjustment d = (0, s)) ∧
    ((d : ℤ) = s.lastAdjustmentDay →
      s.suggestLoadFactorAdjustment d = (s.loadFactorAdjustments.economy, s)) := by
  have habs := abs_le.mp hadj
  unfold AdaptiveEngine.suggestLoadFactorAdjustment
  dsimp only
  by_cases hd3 : d < 3
  · simp only [if_pos hd3]
    refine ⟨⟨hadj, hday⟩, by norm_num, by simp only [sub_self, abs_zero]; norm_num, fun _ => trivial, fun hsame => ?_⟩
    exfalso
    rcases hday with h | h <;> omega
  · simp only [if_neg hd3]
    by_cases hsame : (d : ℤ) = s.lastAdjustmentDay
    · simp only [if_pos hsame]
      exact ⟨⟨hadj, hday⟩, hadj, by simp only [sub_self, abs_zero]; norm_num, fun hd => absurd hd hd3, fun _ => trivial⟩
    · simp only [if_neg hsame]
      by_cases hlim : (0.10 : ℚ) ≤ |s.loadFactorAdjustments.economy|
      · simp only [if_pos hlim]
        exact ⟨⟨hadj, hday⟩, hadj, by simp only [sub_self, abs_zero]; norm_num,
          fun hd => absurd hd hd3, fun hs => absurd hs hsame⟩
      · simp only [if_neg hlim]
        push_neg at hlim
        have hlim' := abs_lt.mp hlim
        have hd3' : (3 : ℤ) ≤ (d : ℤ) := by omega
        by_cases hc1 : (500000 : ℚ) < s.classPenaltyStats.economy.unfulfilledCost / (d : ℚ)
            ∧ s.getTotalOverflowCost / (d : ℚ) < 10000
        · simp only [if_pos hc1]
          by_cases hcapHi : (0.10 : ℚ) < s.loadFactorAdjustments.economy + 0.02
          · simp only [if_pos hcapHi]
            have hne : (0.10 : ℚ) - s.loadFactorAdjustments.economy ≠ 0 := by
              intro h0; rw [sub_eq_zero] at h0; rw [← h0] at hlim'; linarith [hlim'.2]
            simp only [if_neg (by linarith : ¬ (s.loadFactorAdjustments.economy
              + ((0.10 : ℚ) - s.loadFactorAdjustments.economy) < -0.10)), if_pos hne]
            refine ⟨⟨?_, Or.inr hd3'⟩, ?_, ?_, fun hd => absurd hd hd3,
              fun hs => absurd hs hsame⟩ <;>
              · dsimp only
                rw [abs_le]; constructor <;> linarith [hlim'.1, hlim'.2]
          · simp only [if_neg hcapHi]
            simp only [if_neg (by linarith [hlim'.1] : ¬ (s.loadFactorAdjustments.economy
              + (0.02 : ℚ) < -0.10))]
            simp only [if_pos (by norm_num : (0.02 : ℚ) ≠ 0)]
            refine ⟨⟨?_, Or.inr hd3'⟩, ?_, ?_, fun hd => absurd hd hd3,
              fun hs => absurd hs hsame⟩ <;>
              · dsimp only
                rw [abs_le]; constructor <;> linarith [hlim'.1, hlim'.2]
        · simp only [if_neg hc1]
          by_cases hc2 : (10000 : ℚ) * 5 < s.getTotalOverflowCost / (d : ℚ)
          · simp only [if_pos hc2]
            simp only [if_neg (by linarith [hlim'.2] : ¬ ((0.10 : ℚ) <
              s.loadFactorAdjustments.economy + -0.02))]
            by_cases hcapLo : s.loadFactorAdjustments.economy + (-0.02 : ℚ) < -0.10
            · simp only [if_pos hcapLo]
              have hne : (-0.10 : ℚ) - s.loadFactorAdjustments.economy ≠ 0 := by
                intro h0; rw [sub_eq_zero] at h0; rw [← h0] at hlim'; linarith [hlim'.1]
              simp only [if_pos hne]
              refine ⟨⟨?_, Or.inr hd3'⟩, ?_, ?_, fun hd => absurd hd hd3,
                fun hs => absurd hs hsame⟩ <;>
                · dsimp only
                  rw [abs_le]; constructor <;> linarith [hlim'.1, hlim'.2]
            · simp only [if_neg hcapLo]
              simp only [if_pos (by norm_num : (-0.02 : ℚ) ≠ 0)]
              refine ⟨⟨?_, Or.inr hd3'⟩, ?_, ?_, fun hd => absurd hd hd3,
                fun hs => absurd hs hsame⟩ <;>
                · dsimp only
                  rw [abs_le]; constructor <;> linarith [hlim'.1, hlim'.2]
          · simp only [if_neg hc2]
            simp only [add_zero]
            simp only [if_neg (by linarith [hlim'.2] : ¬ ((0.10 : ℚ) <
              s.loadFactorAdjustments.economy)),
              if_neg (by linarith [hlim'.1] : ¬ (s.loadFactorAdjustments.economy < -0.10)),
              if_neg (by norm_num : ¬ ((0 : ℚ) ≠ 0))]
            exact ⟨⟨hadj, hday⟩, hadj, by simp only [sub_self, abs_zero]; norm_num,
              fun hd => absurd hd hd3, fun hs => absurd hs hsame⟩

/-- `updateAirportPerformance` touches only the airport-performance map. -/
theorem updateAirportPerformance_proj (s : AdaptiveEngine) (c : String)
    (r : PenaltyRecord) :
    (s.updateAirportPerformance c r).loadFactorAdjustments = s.loadFactorAdjustments ∧
    (s.updateAirportPerformance c r).lastAdjustmentDay = s.lastAdjustmentDay ∧
    (s.updateAirportPerformance c r).classPenaltyStats = s.classPenaltyStats :=
  ⟨rfl, rfl, rfl⟩

/-- `updateClassPenaltyStats` touches only the class-penalty accumulators. -/
theorem updateClassPenaltyStats_proj (s : AdaptiveEngine) (code : String) (penalty : ℚ)
    (kc : Option KitClass) :
    (s.updateClassPenaltyStats code penalty kc).loadFactorAdjustments
        = s.loadFactorAdjustments ∧
    (s.updateClassPenaltyStats code penalty kc).lastAdjustmentDay = s.lastAdjustmentDay ∧
    (s.updateClassPenaltyStats code penalty kc).airportPerformance
        = s.airportPerformance := by
  unfold AdaptiveEngine.updateClassPenaltyStats
  dsimp only
  split
  · exact ⟨rfl, rfl, rfl⟩
  · split
    · exact ⟨rfl, rfl, rfl⟩
    · split
      · exact ⟨rfl, rfl, rfl⟩
      · exact ⟨rfl, rfl, rfl⟩

/-- Processing one penalty never changes the adjustment state. -/
theorem processPenalty_proj (day hour : ℕ) (s : AdaptiveEngine) (p : RawPenalty) :
    (AdaptiveEngine.processPenalty day hour s p).loadFactorAdjustments
        = s.loadFactorAdjustments ∧
    (AdaptiveEngine.processPenalty day hour s p).lastAdjustmentDay
        = s.lastAdjustmentDay := by
  unfold AdaptiveEngine.processPenalty
  dsimp only
  cases hac : (parseReason p.reason).airportCode with
  | none =>
    dsimp only
    exact ⟨(updateClassPenaltyStats_proj _ _ _ _).1, (updateClassPenaltyStats_proj _ _ _ _).2.1⟩
  | some c =>
    dsimp only
    exact ⟨((updateClassPenaltyStats_proj _ _ _ _).1).trans
        ((updateAirportPerformance_proj _ _ _).1),
      ((updateClassPenaltyStats_proj _ _ _ _).2.1).trans
        ((updateAirportPerformance_proj _ _ _).2.1)⟩

/-- Folding penalties never changes the adjustment state. -/
theorem foldProcess_proj (day hour : ℕ) (ps : List RawPenalty) (s : AdaptiveEngine) :
    (ps.foldl (AdaptiveEngine.processPenalty day hour) s).loadFactorAdjustments
        = s.loadFactorAdjustments ∧
    (ps.foldl (AdaptiveEngine.processPenalty day hour) s).lastAdjustmentDay
        = s.lastAdjustmentDay := by
  induction ps generalizing s with
  | nil => exact ⟨rfl, rfl⟩
  | cons p rest ih =>
    rw [List.foldl_cons]
    exact ⟨((ih _).1).trans (processPenalty_proj day hour s p).1,
      ((ih _).2).trans (processPenalty_proj day hour s p).2⟩

/-- `recordPenalties` never changes the adjustment state. -/
theorem recordPenalties_proj (s : AdaptiveEngine) (ps : List RawPenalty) (day hour : ℕ) :
    (s.recordPenalties ps day hour).loadFactorAdjustments = s.loadFactorAdjustments ∧
    (s.recordPenalties ps day hour).lastAdjustmentDay = s.lastAdjustmentDay := by
  unfold AdaptiveEngine.recordPenalties AdaptiveEngine.analyzeAndAdapt
    AdaptiveEngine.takeDailySnapshot
  dsimp only
  constructor
  · split
    · exact (foldProcess_proj day hour ps s).1
    · exact (foldProcess_proj day hour ps s).1
  · split
    · exact (foldProcess_proj day hour ps s).2
    · exact (foldProcess_proj day hour ps s).2

/-- The adjustment invariants hold at every state reachable from a fresh
engine: the cumulative economy adjustment stays within ±0.10 and the last
adjustment day is either the initial −1 or at least 3. -/
theorem foldAdapt_invariant (ops : List AdaptOp) (s : AdaptiveEngine)
    (hadj : |s.loadFactorAdjustments.economy| ≤ 0.10)
    (hday : s.lastAdjustmentDay = -1 ∨ 3 ≤ s.lastAdjustmentDay) :
    |(ops.foldl applyAdaptOp s).loadFactorAdjustments.economy| ≤ 0.10 ∧
    ((ops.foldl applyAdaptOp s).lastAdjustmentDay = -1 ∨
      3 ≤ (ops.foldl applyAdaptOp s).lastAdjustmentDay) := by
  induction ops generalizing s with
  | nil => exact ⟨hadj, hday⟩
  | cons op rest ih =>
    rw [List.foldl_cons]
    cases op with
    | recPen ps day hour =>
      refine ih _ ?_ ?_
      · rw [applyAdaptOp, (recordPenalties_proj s ps day hour).1]; exact hadj
      · rw [applyAdaptOp, (recordPenalties_proj s ps day hour).2]; exact hday
    | sugAdj day =>
      obtain ⟨⟨h1, h2⟩, -⟩ := suggest_step s day hadj hday
      exact ih _ h1 h2

/-- C2: for every sequence of `recordPenalties` and
`suggestLoadFactorAdjustment` calls (in particular any sequence with
non-decreasing days), the next `suggestLoadFactorAdjustment` call returns 0
before day 3; the cumulative economy adjustment it returns never exceeds 0.10
in absolute value; the applied step moves the stored cumulative adjustment by
at most 0.02; and whenever an adjustment has been applied on the current
calendar day (`lastAdjustmentDay` equals the day), the call returns the
already-computed value and leaves the state unchanged. -/
theorem C2_load_factor_adjustment (ops : List AdaptOp) (d : ℕ) :
    (d < 3 → ((runAdaptOps ops).suggestLoadFactorAdjustment d).1 = 0) ∧
    |((runAdaptOps ops).suggestLoadFactorAdjustment d).1| ≤ 0.10 ∧
    |((runAdaptOps ops).suggestLoadFactorAdjustment d).2.loadFactorAdjustments.economy
        - (runAdaptOps ops).loadFactorAdjustments.economy| ≤ 0.02 ∧
    ((d : ℤ) = (runAdaptOps ops).lastAdjustmentDay →
      (runAdaptOps ops).suggestLoadFactorAdjustment d
        = ((runAdaptOps ops).loadFactorAdjustments.economy, runAdaptOps ops)) := by
  obtain ⟨hadj, hday⟩ := foldAdapt_invariant ops AdaptiveEngine.initial
    (by norm_num [AdaptiveEngine.initial]) (Or.inl rfl)
  obtain ⟨-, h2, h3, h4, h5⟩ := suggest_step (runAdaptOps ops) d hadj hday
  exact ⟨fun hd => by rw [h4 hd], h2, h3, h5⟩

/-- Witness for C2: before day 3 a fresh engine suggests no adjustment. -/
theorem C2_load_factor_adjustment_witness :
    (AdaptiveEngine.initial.suggestLoadFactorAdjustment 0).1 = 0 :=
  (C2_load_factor_adjustment [] 0).1 (by norm_num)

/-- One `updateAirportPerformance` keeps every stored risk score in `(0, 1]`:
the seed is 0.5, the overflow bump is capped at 1.0, the unfulfilled decrement
is floored at 0.1, and the 0.99 decay keeps positive scores positive. -/
theorem updateAirportPerformance_risk (s : AdaptiveEngine) (c : String)
    (r : PenaltyRecord)
    (hinv : ∀ code perf, s.airportPerformance code = some perf →
      0 < perf.riskScore ∧ perf.riskScore ≤ 1) :
    ∀ code perf, (s.updateAirportPerformance c r).airportPerformance code = some perf →
      0 < perf.riskScore ∧ perf.riskScore ≤ 1 := by
  intro code perf h
  unfold AdaptiveEngine.updateAirportPerformance at h
  dsimp only at h
  by_cases hc : code = c
  · subst hc
    rw [Function.update_same] at h
    set q : ℚ := ((s.airportPerformance code).getD
      { overflowCount := 0, unfulfilledCount := 0, lastOverflowDay := -1,
        riskScore := 0.5 }).riskScore with hq
    have hbase : 0 < q ∧ q ≤ 1 := by
      rw [hq]
      cases hb : s.airportPerformance code with
      | none => norm_num
      | some p0 => exact hinv code p0 hb
    obtain ⟨hb0, hb1⟩ := hbase
    cases h
    cases r.type with
    | INVENTORY_EXCEEDS_CAPACITY =>
      dsimp only
      have hmin0 : (0 : ℚ) < min 1.0 (q + 0.1) := lt_min (by norm_num) (by linarith)
      have hmin1 : min (1.0 : ℚ) (q + 0.1) ≤ 1.0 := min_le_left _ _
      constructor
      · exact mul_pos hmin0 (by norm_num)
      · exact mul_le_one₀ (le_trans hmin1 (by norm_num)) (by norm_num) (by norm_num)
    | FLIGHT_UNFULFILLED =>
      dsimp only
      have hmax0 : (0 : ℚ) < max 0.1 (q - 0.02) :=
        lt_of_lt_of_le (by norm_num) (le_max_left _ _)
      have hmax1 : max (0.1 : ℚ) (q - 0.02) ≤ 1 := max_le (by norm_num) (by linarith)
      constructor
      · exact mul_pos hmax0 (by norm_num)
      · exact mul_le_one₀ hmax1 (by norm_num) (by norm_num)
    | NEGATIVE_INVENTORY =>
      dsimp only
      constructor
      · exact mul_pos hb0 (by norm_num)
      · exact mul_le_one₀ hb1 (by norm_num) (by norm_num)
  · rw [Function.update_noteq hc] at h
    exact hinv code perf h

/-- Processing one penalty preserves the risk-score bounds. -/
theorem processPenalty_risk (day hour : ℕ) (s : AdaptiveEngine) (p : RawPenalty)
    (hinv : ∀ code perf, s.airportPerformance code = some perf →
      0 < perf.riskScore ∧ perf.riskScore ≤ 1) :
    ∀ code perf,
      (AdaptiveEngine.processPenalty day hour s p).airportPerformance code = some perf →
        0 < perf.riskScore ∧ perf.riskScore ≤ 1 := by
  intro code perf h
  unfold AdaptiveEngine.processPenalty at h
  dsimp only at h
  rw [(updateClassPenaltyStats_proj _ _ _ _).2.2] at h
  cases hac : (parseReason p.reason).airportCode with
  | none =>
    rw [hac] at h
    exact hinv code perf h
  | some c =>
    rw [hac] at h
    exact updateAirportPerformance_risk _ c _ (fun code perf h => hinv code perf h) code perf h

/-- Folding penalties preserves the risk-score bounds. -/
theorem foldProcess_risk (day hour : ℕ) (ps : List RawPenalty) (s : AdaptiveEngine)
    (hinv : ∀ code perf, s.airportPerformance code = some perf →
      0 < perf.riskScore ∧ perf.riskScore ≤ 1) :
    ∀ code perf,
      (ps.foldl (AdaptiveEngine.processPenalty day hour) s).airportPerformance code
          = some perf → 0 < perf.riskScore ∧ perf.riskScore ≤ 1 := by
  induction ps generalizing s with
  | nil => exact hinv
  | cons p rest ih =>
    rw [List.foldl_cons]
    exact ih _ (processPenalty_risk day hour s p hinv)

/-- `recordPenalties` preserves the risk-score bounds. -/
theorem recordPenalties_risk (s : AdaptiveEngine) (ps : List RawPenalty) (day hour : ℕ)
    (hinv : ∀ code perf, s.airportPerformance code = some perf →
      0 < perf.riskScore ∧ perf.riskScore ≤ 1) :
    ∀ code perf, (s.recordPenalties ps day hour).airportPerformance code = some perf →
      0 < perf.riskScore ∧ perf.riskScore ≤ 1 := by
  intro code perf h
  unfold AdaptiveEngine.recordPenalties AdaptiveEngine.analyzeAndAdapt
    AdaptiveEngine.takeDailySnapshot at h
  dsimp only at h
  split at h
  · exact foldProcess_risk day hour ps s hinv code perf h
  · exact foldProcess_risk day hour ps s hinv code perf h

/-- `suggestLoadFactorAdjustment` never touches the airport-performance map. -/
theorem suggest_airport (s : AdaptiveEngine) (d : ℕ) :
    ((s.suggestLoadFactorAdjustment d).2).airportPerformance = s.airportPerformance := by
  unfold AdaptiveEngine.suggestLoadFactorAdjustment
  dsimp only
  split_ifs <;> rfl

/-- The risk bounds hold at every state reachable from a fresh engine. -/
theorem foldAdapt_risk (ops : List AdaptOp) (s : AdaptiveEngine)
    (hinv : ∀ code perf, s.airportPerformance code = some perf →
      0 < perf.riskScore ∧ perf.riskScore ≤ 1) :
    ∀ code perf, (ops.foldl applyAdaptOp s).airportPerformance code = some perf →
      0 < perf.riskScore ∧ perf.riskScore ≤ 1 := by
  induction ops generalizing s with
  | nil => exact hinv
  | cons op rest ih =>
    rw [List.foldl_cons]
    cases op with
    | recPen ps day hour => exact ih _ (recordPenalties_risk s ps day hour hinv)
    | sugAdj day =>
      refine ih _ ?_
      rw [applyAdaptOp, suggest_airport]
      exact hinv

/-- A penalty whose reason does not name the airport leaves that airport's
performance entry unchanged. -/
theorem processPenalty_untouched (day hour : ℕ) (s : AdaptiveEngine) (p : RawPenalty)
    (code : String) (h : (parseReason p.reason).airportCode ≠ some code) :
    (AdaptiveEngine.processPenalty day hour s p).airportPerformance code
      = s.airportPerformance code := by
  unfold AdaptiveEngine.processPenalty
  dsimp only
  rw [(updateClassPenaltyStats_proj _ _ _ _).2.2]
  cases hac : (parseReason p.reason).airportCode with
  | none => rfl
  | some c =>
    have hne : code ≠ c := by
      intro hEq
      exact h (by rw [hac, hEq])
    unfold AdaptiveEngine.updateAirportPerformance
    dsimp only
    exact Function.update_noteq hne _ _

/-- Folding penalties that never name the airport leaves its entry unchanged. -/
theorem foldProcess_untouched (day hour : ℕ) (ps : List RawPenalty) (s : AdaptiveEngine)
    (code : String) (h : ∀ p ∈ ps, (parseReason p.reason).airportCode ≠ some code) :
    (ps.foldl (AdaptiveEngine.processPenalty day hour) s).airportPerformance code
      = s.airportPerformance code := by
  induction ps generalizing s with
  | nil => rfl
  | cons p rest ih =>
    rw [List.foldl_cons]
    rw [ih _ (fun q hq => h q (List.mem_cons_of_mem p hq))]
    exact processPenalty_untouched day hour s p code (h p (List.mem_cons_self p rest))

/-- `recordPenalties` with no penalty naming the airport leaves its entry
unchanged. -/
theorem recordPenalties_untouched (s : AdaptiveEngine) (ps : List RawPenalty)
    (day hour : ℕ) (code : String)
    (h : ∀ p ∈ ps, (parseReason p.reason).airportCode ≠ some code) :
    (s.recordPenalties ps day hour).airportPerformance code
      = s.airportPerformance code := by
  unfold AdaptiveEngine.recordPenalties AdaptiveEngine.analyzeAndAdapt
    AdaptiveEngine.takeDailySnapshot
  dsimp only
  split
  · exact foldProcess_untouched day hour ps s code h
  · exact foldProcess_untouched day hour ps s code h

/-- A trace in which no penalty reason names the airport leaves its entry
at the initial `none`. -/
theorem foldAdapt_untouched (ops : List AdaptOp) (s : AdaptiveEngine) (code : String)
    (h : ∀ op ∈ ops, ∀ ps day hour, op = AdaptOp.recPen ps day hour →
      ∀ p ∈ ps, (parseReason p.reason).airportCode ≠ some code) :
    (ops.foldl applyAdaptOp s).airportPerformance code = s.airportPerformance code := by
  induction ops generalizing s with
  | nil => rfl
  | cons op rest ih =>
    rw [List.foldl_cons]
    rw [ih _ (fun q hq => h q (List.mem_cons_of_mem op hq))]
    cases op with
    | recPen ps day hour =>
      exact recordPenalties_untouched s ps day hour code
        (h _ (List.mem_cons_self _ rest) ps day hour rfl)
    | sugAdj day =>
      rw [applyAdaptOp, suggest_airport]

/-- C10: over every sequence of engine calls, every stored airport risk score
stays strictly greater than 0 and at most 1.0, and `getAirportRiskScore`
returns exactly 0.5 for any airport code that has never been attributed a
penalty. -/
theorem C10_airport_risk (ops : List AdaptOp) (code : String) :
    (∀ perf, (runAdaptOps ops).airportPerformance code = some perf →
      0 < perf.riskScore ∧ perf.riskScore ≤ 1) ∧
    ((∀ op ∈ ops, ∀ ps day hour, op = AdaptOp.recPen ps day hour →
        ∀ p ∈ ps, (parseReason p.reason).airportCode ≠ some code) →
      (runAdaptOps ops).getAirportRiskScore code = 1/2) := by
  constructor
  · intro perf h
    exact foldAdapt_risk ops AdaptiveEngine.initial
      (fun _ _ h0 => absurd h0 (by simp [AdaptiveEngine.initial])) code perf h
  · intro hno
    have h := foldAdapt_untouched ops AdaptiveEngine.initial code hno
    unfold AdaptiveEngine.getAirportRiskScore runAdaptOps
    rw [h]
    show (0.5 : ℚ) = 1/2
    norm_num

/-- Witness for C10: on the empty trace every airport's score reads 0.5. -/
theorem C10_airport_risk_witness :
    (runAdaptOps []).getAirportRiskScore "XYZ" = 1/2 :=
  (C10_airport_risk [] "XYZ").2 (by simp)
